import Mathlib

/-!
Shallow embedding of `src/jabber.js` (a single-file Express web server).

JavaScript conventions modelled explicitly:
* A value that may be SQL `NULL` / JS `null` / absent is an `Option`.
* JS truthiness tests on strings (`!s`) are `falsyS` (`null`/`undefined`/`""`
  are falsy).
* `x || null` normalisation used in `saveTokens` is `normS` / `normI`
  (empty string and the integer 0 collapse to `null`).
* The object spread `\x7b...a, ...b\x7d` is `spreadMerge` (a field present in
  `b` wins, otherwise the field of `a` is kept).
* Asynchronous failures (rejected promises / thrown errors) are `Except String`;
  a handler that catches them returns a plain response, a handler that does
  not wrap its body in try/catch has return type `Except String _` and an
  escaping failure is `Except.error`.
* Database reads and outbound network calls are recorded as an `Effect` trace
  where a claim is about their absence.
-/

namespace Jabber

/-- JS truthiness test `!s` for a nullable string: `null`/`undefined` and
the empty string are falsy. -/
def falsyS : Option String → Bool
  | none => true
  | some s => s = ""

/-- The `x || null` of `saveTokens` on string fields: absent and `""` become
SQL `NULL`. -/
def normS : Option String → Option String
  | none => none
  | some s => if s = "" then none else some s

/-- The `x || null` of `saveTokens` on the integer `expiry_date` field:
absent and `0` become SQL `NULL`. -/
def normI : Option Int → Option Int
  | none => none
  | some n => if n = 0 then none else some n

/-- One row of the singleton `oauth_tokens` table, and likewise a token
object handed around by the OAuth machinery (`none` = field `NULL`/absent). -/
structure TokenPayload where
  access_token : Option String := none
  refresh_token : Option String := none
  scope : Option String := none
  token_type : Option String := none
  expiry_date : Option Int := none
deriving DecidableEq, Repr

/-- Field-level semantics of the JS object spread: the second operand wins
when its field is present. -/
def orElseO {α : Type} : Option α → Option α → Option α
  | some a, _ => some a
  | none, b => b

/-- The object spread `\x7b...old, ...t\x7d` used in the token-refresh
listener of `getCalendarClient`. -/
def spreadMerge (old t : TokenPayload) : TokenPayload :=
  { access_token := orElseO t.access_token old.access_token
    refresh_token := orElseO t.refresh_token old.refresh_token
    scope := orElseO t.scope old.scope
    token_type := orElseO t.token_type old.token_type
    expiry_date := orElseO t.expiry_date old.expiry_date }

/-- The row written by `saveTokens`: the UPDATE sets every column of the
singleton row from the supplied object, with `|| null` normalisation. -/
def saveTokensRow (t : TokenPayload) : TokenPayload :=
  { access_token := normS t.access_token
    refresh_token := normS t.refresh_token
    scope := normS t.scope
    token_type := normS t.token_type
    expiry_date := normI t.expiry_date }

/-- `saveTokens(tokens)`: overwrites the whole singleton row (`row` is the
existing row, which the UPDATE does not consult); `dbErr` is the storage
layer's error report (`some e` = the UPDATE failed with message `e`, and the
promise rejects). -/
def saveTokens (dbErr : Option String) (row t : TokenPayload) : Except String TokenPayload :=
  match dbErr with
  | some e => Except.error e
  | none => Except.ok (saveTokensRow t)

/-- The listener registered by `getCalendarClient`:
`o.on(tokens, t => saveTokens(\x7b...tokens, ...t\x7d).catch(noop))`.
`tokens` is the credential loaded when the client was built, `t` the refresh
payload, `row` the current database row. Returns the database row after the
listener ran: persistence failures are swallowed and leave the row as it was. -/
def onTokens (tokens t : TokenPayload) (dbErr : Option String) (row : TokenPayload) :
    TokenPayload :=
  match saveTokens dbErr row (spreadMerge tokens t) with
  | Except.ok r => r
  | Except.error _ => row

/-- The three environment values read at startup (empty string = unset,
matching `process.env.X || ""`). -/
structure OAuthConfig where
  clientId : String
  clientSecret : String
  redirect : String

/-- An OAuth2 client bound to the three configuration values. -/
structure OAuth2Client where
  clientId : String
  clientSecret : String
  redirect : String
deriving DecidableEq, Repr

/-- `getOAuth2Client()`: `null` when any of the three values is unset. -/
def getOAuth2Client (cfg : OAuthConfig) : Option OAuth2Client :=
  if cfg.clientId = "" ∨ cfg.clientSecret = "" ∨ cfg.redirect = "" then none
  else some ⟨cfg.clientId, cfg.clientSecret, cfg.redirect⟩

/-- Observable side effects recorded by the embedding: a read of the token
store and an outbound network call. -/
inductive Effect where
  | dbRead
  | network
deriving DecidableEq, Repr

/-- A calendar API handle: the authenticated client with the credential that
was attached to it (the registered refresh listener is `onTokens` with that
same credential as its closure). -/
structure CalendarHandle where
  client : OAuth2Client
  creds : TokenPayload
deriving DecidableEq, Repr

/-- `loadTokens()` result shape: the singleton row or `null`. -/
def noAccessToken : Option TokenPayload → Bool
  | none => true
  | some t => falsyS t.access_token

/-- `getCalendarClient()`: throws when not configured (before loading the
row), throws when the loaded row has no access token, otherwise yields a
handle. The second component is the effect trace. -/
def getCalendarClient (cfg : OAuthConfig) (row : Option TokenPayload) :
    Except String CalendarHandle × List Effect :=
  match getOAuth2Client cfg with
  | none => (Except.error "Google OAuth not configured", [])
  | some o =>
    match row with
    | none => (Except.error "Not authenticated with Google. Visit /auth/google", [Effect.dbRead])
    | some tokens =>
      if falsyS tokens.access_token then
        (Except.error "Not authenticated with Google. Visit /auth/google", [Effect.dbRead])
      else
        (Except.ok ⟨o, tokens⟩, [Effect.dbRead])

/-- A row of the `memories` table (the `created_at` timestamp, an
environment input never consulted by any handler, is not modelled). -/
structure MemoryRow where
  id : Nat
  key : String
  value : String
deriving DecidableEq, Repr

/-- A row of the `events` table. -/
structure EventRow where
  id : Nat
  title : String
  description : String
  start : String
  endT : String
  timezone : String
deriving DecidableEq, Repr

/-- A row of the `messages` table. -/
structure MessageRow where
  role : String
  content : String
deriving DecidableEq, Repr

/-- The persistent database state: the three CRUD tables plus the singleton
`oauth_tokens` row; `nextMemId`/`nextEventId` are the AUTOINCREMENT
counters. Table lists are kept in insertion order. -/
structure ServerState where
  memories : List MemoryRow
  events : List EventRow
  messages : List MessageRow
  oauthRow : TokenPayload
  nextMemId : Nat
  nextEventId : Nat
deriving DecidableEq, Repr

/-- The state right after startup initialisation: empty tables and the
all-NULL singleton credential row. -/
def initState : ServerState :=
  { memories := [], events := [], messages := [], oauthRow := {},
    nextMemId := 1, nextEventId := 1 }

/-- A JSON API response: status code plus the optional `error` / `id`
fields of the body. -/
structure ApiResp where
  status : Nat
  error : Option String := none
  id : Option Nat := none
deriving DecidableEq, Repr

/-- `POST /api/memories`: validates `key`/`value`, inserts a row with the
next AUTOINCREMENT id. -/
def postMemories (st : ServerState) (key value : Option String) : ApiResp × ServerState :=
  if falsyS key || falsyS value then
    ({ status := 400, error := some "key and value required" }, st)
  else
    ({ status := 200, id := some st.nextMemId },
     { st with memories := st.memories ++ [⟨st.nextMemId, key.getD "", value.getD ""⟩],
               nextMemId := st.nextMemId + 1 })

/-- `ORDER BY id DESC` on the `memories` table. -/
def memGE (a b : MemoryRow) : Prop := b.id ≤ a.id

instance : DecidableRel memGE := fun a b => Nat.decLe b.id a.id

/-- `GET /api/memories`: the rows ordered by id descending. -/
def listMemories (st : ServerState) : List MemoryRow :=
  List.insertionSort memGE st.memories

/-- The body of a `POST /api/events` request. -/
structure EventReq where
  title : Option String := none
  description : Option String := none
  start : Option String := none
  endT : Option String := none
  timezone : Option String := none
deriving DecidableEq, Repr

/-- `POST /api/events`: validates `title`/`start`, inserts a row with
`description||""`, `end||""`, `timezone||""` defaults. -/
def postEvents (st : ServerState) (b : EventReq) : ApiResp × ServerState :=
  if falsyS b.title || falsyS b.start then
    ({ status := 400, error := some "title and start required" }, st)
  else
    ({ status := 200, id := some st.nextEventId },
     { st with events := st.events ++
        [⟨st.nextEventId, b.title.getD "", b.description.getD "", b.start.getD "",
          b.endT.getD "", b.timezone.getD ""⟩],
               nextEventId := st.nextEventId + 1 })

/-- `ORDER BY start ASC` on the `events` table (SQLite TEXT ordering). -/
def eventLE (a b : EventRow) : Prop := a.start ≤ b.start

instance : DecidableRel eventLE := fun a b => inferInstanceAs (Decidable (a.start ≤ b.start))

instance : IsTotal EventRow eventLE := ⟨fun a b => le_total a.start b.start⟩

instance : IsTrans EventRow eventLE := ⟨fun _ _ _ h h' => le_trans h h'⟩

/-- `GET /api/events`: the rows ordered by `start` ascending. -/
def listEvents (st : ServerState) : List EventRow :=
  List.insertionSort eventLE st.events

/-- Appending one row to the `messages` table (`INSERT INTO messages`). -/
def addMessage (st : ServerState) (role content : String) : ServerState :=
  { st with messages := st.messages ++ [⟨role, content⟩] }

/-- The upstream chat completion body, as far as the handler inspects it:
the optional chain `data?.choices?.[0]?.message?.content`. -/
structure ChatMsgObj where
  content : Option String := none
deriving DecidableEq, Repr

structure ChatChoice where
  message : Option ChatMsgObj := none
deriving DecidableEq, Repr

structure ChatCompletion where
  choices : Option (List ChatChoice) := none
deriving DecidableEq, Repr

/-- `data?.choices?.[0]?.message?.content`. -/
def firstChoiceContent (d : ChatCompletion) : Option String :=
  Option.bind (Option.bind (Option.bind d.choices List.head?) ChatChoice.message)
    ChatMsgObj.content

/-- Response body of `POST /api/chat`. -/
structure ChatResp where
  status : Nat
  reply : Option String := none
  error : Option String := none
deriving DecidableEq, Repr

def chatNoKeyReply : String := "Set OPENAI_API_KEY in Render to enable responses."

def chatFallback : String := "Sorry, I could not respond."

/-- `POST /api/chat`. The whole body sits in a try/catch, so the handler
always returns a response. `upstream` is the combined result of the
`fetch` + `resp.json()` pair (`Except.error` = either rejected). The
user-role row is inserted before the API-key check and before the upstream
call, so it survives every later outcome; the memory read feeds only the
outbound prompt and cannot fail the handler (its callback resolves `""`). -/
def chatHandler (msg : Option String) (key : String)
    (upstream : Except String ChatCompletion) (st : ServerState) :
    ChatResp × ServerState :=
  if falsyS msg then ({ status := 400, error := some "message required" }, st)
  else
    let st1 := addMessage st "user" (msg.getD "")
    if key = "" then ({ status := 200, reply := some chatNoKeyReply }, st1)
    else
      match upstream with
      | Except.error e =>
        ({ status := 500, error := some (if e = "" then "chat failed" else e) }, st1)
      | Except.ok d =>
        let reply :=
          match normS (firstChoiceContent d) with
          | some c => c
          | none => chatFallback
        ({ status := 200, reply := some reply }, addMessage st1 "assistant" reply)

/-- Response body of the proxy endpoints (images, search, calendar):
`data` stands for the upstream body relayed verbatim. -/
structure ProxyResp where
  status : Nat
  data : Option String := none
  error : Option String := none
deriving DecidableEq, Repr

/-- `POST /api/images`. The handler has NO try/catch: after the two
validation gates, a rejected upstream call escapes the handler
(`Except.error`) instead of being converted to a response. -/
def imagesHandler (prompt n : Option String) (key : String)
    (upstream : Except String String) : Except String ProxyResp :=
  if falsyS prompt then Except.ok { status := 400, error := some "prompt required" }
  else if key = "" then Except.ok { status := 400, error := some "OPENAI_API_KEY missing" }
  else
    match upstream with
    | Except.error e => Except.error e
    | Except.ok d => Except.ok { status := 200, data := some d }

/-- `GET /api/search`: the `q` gate, then a try/catch around the upstream
call, converting any failure to a 500 payload. -/
def searchHandler (q : Option String) (upstream : Except String String) : ProxyResp :=
  if falsyS q then { status := 400, error := some "q param required" }
  else
    match upstream with
    | Except.error _ => { status := 500, error := some "Search failed" }
    | Except.ok d => { status := 200, data := some d }

/-- Body of a `POST /api/calendar/create` request. -/
structure CreateBody where
  title : Option String := none
  description : Option String := none
  start : Option String := none
  endT : Option String := none
  timezone : Option String := none
deriving DecidableEq, Repr

/-- `POST /api/calendar/create`: the field gate, then `getCalendarClient`
(whose thrown errors the surrounding try/catch turns into 500 payloads),
then one remote insert (`upstream`). The third component is the effect
trace; the handler itself never writes the database. -/
def calendarCreateHandler (cfg : OAuthConfig) (row : Option TokenPayload)
    (b : CreateBody) (upstream : Except String String) (st : ServerState) :
    ProxyResp × ServerState × List Effect :=
  if falsyS b.title || falsyS b.start || falsyS b.endT then
    ({ status := 400, error := some "title, start, end required" }, st, [])
  else
    match getCalendarClient cfg row with
    | (Except.error e, effs) => ({ status := 500, error := some e }, st, effs)
    | (Except.ok _, effs) =>
      match upstream with
      | Except.error e => ({ status := 500, error := some e }, st, effs ++ [Effect.network])
      | Except.ok d => ({ status := 200, data := some d }, st, effs ++ [Effect.network])

/-- A non-JSON (text/HTML) response, as sent by the OAuth routes. -/
structure PageResp where
  status : Nat
  body : String
deriving DecidableEq, Repr

/-- Stands for the inline redirect script sent on a successful exchange. -/
def redirectHomeScript : String := "<script>window.location.href=/</script>"

/-- `GET /oauth2callback`: gate on the query `code` and the configured
client, then exchange the code (`exch` is the result of `o.getToken(code)`)
and persist via `saveTokens`; both failures land in the same catch. -/
def oauth2callbackHandler (cfg : OAuthConfig) (code : Option String)
    (exch : Except String TokenPayload) (dbErr : Option String) (st : ServerState) :
    PageResp × ServerState :=
  if falsyS code || (getOAuth2Client cfg).isNone then
    (⟨400, "Missing code or OAuth client."⟩, st)
  else
    match exch with
    | Except.error _ => (⟨500, "OAuth exchange failed."⟩, st)
    | Except.ok tokens =>
      match saveTokens dbErr st.oauthRow tokens with
      | Except.error _ => (⟨500, "OAuth exchange failed."⟩, st)
      | Except.ok r => (⟨200, redirectHomeScript⟩, { st with oauthRow := r })

/-- A sequence of `POST /api/memories` requests applied in order. -/
def applyMemWrites (st : ServerState) (ws : List (Option String × Option String)) :
    ServerState :=
  ws.foldl (fun s kv => (postMemories s kv.1 kv.2).2) st

/-- A sequence of `POST /api/events` requests applied in order. -/
def applyEventWrites (st : ServerState) (ws : List EventReq) : ServerState :=
  ws.foldl (fun s b => (postEvents s b).2) st

/-! ## Theorems -/

/-- C1: for every credential stored with a non-empty refresh token and
scope, when the token-refresh listener registered by `getCalendarClient`
receives a refresh payload containing only a new (non-empty) access token
and (non-zero) expiry, the credential it persists retains the original
refresh token and scope while the access token and expiry are updated to
the new values. -/
theorem c1_refresh_listener_preserves (tokens : TokenPayload) (a r s : String) (e : Int)
    (row : TokenPayload)
    (hr : tokens.refresh_token = some r) (hrne : r ≠ "")
    (hs : tokens.scope = some s) (hsne : s ≠ "")
    (hane : a ≠ "") (hene : e ≠ 0) :
    onTokens tokens { access_token := some a, expiry_date := some e } none row =
      { access_token := some a, refresh_token := some r, scope := some s,
        token_type := normS tokens.token_type, expiry_date := some e } := by
  simp [onTokens, saveTokens, saveTokensRow, spreadMerge, orElseO, hr, hs, normS, normI,
    hrne, hsne, hane, hene]

theorem c1_refresh_listener_preserves_witness :
    onTokens { access_token := some "oldA", refresh_token := some "R1", scope := some "cal",
               token_type := some "Bearer", expiry_date := some 100 }
        { access_token := some "newA", expiry_date := some 999 } none {} =
      { access_token := some "newA", refresh_token := some "R1", scope := some "cal",
        token_type := some "Bearer", expiry_date := some 999 } := by
  have h := c1_refresh_listener_preserves
    { access_token := some "oldA", refresh_token := some "R1", scope := some "cal",
      token_type := some "Bearer", expiry_date := some 100 }
    "newA" "R1" "cal" 999 {} rfl (by decide) rfl (by decide) (by decide) (by decide)
  simpa [normS] using h

/-- C2 counterexample: `saveTokens` does not merge. Saving a partial
credential that supplies only a new access token sets the stored
refresh token to NULL even though the existing row held one; the UPDATE
overwrites every column from the supplied object alone. -/
theorem c2_save_overwrites_counterexample :
    saveTokens none
        { access_token := some "A0", refresh_token := some "R", scope := some "cal",
          token_type := some "Bearer", expiry_date := some 111 }
        { access_token := some "A1" } =
      Except.ok { access_token := some "A1", refresh_token := none, scope := none,
                  token_type := none, expiry_date := none } := by
  rfl

/-- C2 amended: `saveTokens` overwrites the whole stored row from the
supplied object alone (with `|| null` normalisation), independent of the
existing row — unsupplied fields become NULL, so preservation happens only
when the caller pre-merges them into the argument — and it signals failure
exactly when the storage layer reports an error. -/
theorem c2_save_overwrite_semantics (dbErr : Option String) (old old' p : TokenPayload) :
    (∀ e, dbErr = some e → saveTokens dbErr old p = Except.error e) ∧
    (dbErr = none → saveTokens dbErr old p = Except.ok (saveTokensRow p)) ∧
    saveTokens dbErr old p = saveTokens dbErr old' p ∧
    (saveTokensRow p).access_token = normS p.access_token ∧
    (saveTokensRow p).refresh_token = normS p.refresh_token ∧
    (saveTokensRow p).scope = normS p.scope ∧
    (saveTokensRow p).token_type = normS p.token_type ∧
    (saveTokensRow p).expiry_date = normI p.expiry_date := by
  refine ⟨?_, ?_, ?_, rfl, rfl, rfl, rfl, rfl⟩
  · intro e he; simp [saveTokens, he]
  · intro he; simp [saveTokens, he]
  · cases dbErr <;> rfl

theorem c2_save_overwrite_semantics_witness :
    saveTokens none { refresh_token := some "R" } { access_token := some "A1" } =
      Except.ok (saveTokensRow { access_token := some "A1" }) :=
  (c2_save_overwrite_semantics none { refresh_token := some "R" } {}
    { access_token := some "A1" }).2.1 rfl

/-- C3: `getCalendarClient` fails with the not-configured error when any of
the client id, client secret or redirect URI is unset, with a result
independent of the token store and no store read; otherwise, when the
stored credential has no access token, it fails with the not-authenticated
error having performed only the store read and no network call. -/
theorem c3_get_client_gates (cfg : OAuthConfig) (row : Option TokenPayload) :
    ((cfg.clientId = "" ∨ cfg.clientSecret = "" ∨ cfg.redirect = "") →
      (getCalendarClient cfg row).1 = Except.error "Google OAuth not configured" ∧
      (∀ row', getCalendarClient cfg row' = getCalendarClient cfg row) ∧
      Effect.dbRead ∉ (getCalendarClient cfg row).2) ∧
    (¬(cfg.clientId = "" ∨ cfg.clientSecret = "" ∨ cfg.redirect = "") →
      noAccessToken row = true →
      (getCalendarClient cfg row).1 =
        Except.error "Not authenticated with Google. Visit /auth/google" ∧
      Effect.network ∉ (getCalendarClient cfg row).2) := by
  constructor
  · intro h
    refine ⟨?_, fun row' => ?_, ?_⟩ <;>
      simp [getCalendarClient, getOAuth2Client, h]
  · intro h hrow
    cases row with
    | none => refine ⟨?_, ?_⟩ <;> simp [getCalendarClient, getOAuth2Client, h]
    | some tokens =>
      simp [noAccessToken] at hrow
      refine ⟨?_, ?_⟩ <;> simp [getCalendarClient, getOAuth2Client, h, hrow]

theorem c3_get_client_gates_witness :
    (getCalendarClient ⟨"", "sec", "https://x/cb"⟩
        (some { access_token := some "tok" })).1 =
      Except.error "Google OAuth not configured" ∧
    (getCalendarClient ⟨"id", "sec", "https://x/cb"⟩ (some {})).1 =
      Except.error "Not authenticated with Google. Visit /auth/google" ∧
    Effect.network ∉ (getCalendarClient ⟨"id", "sec", "https://x/cb"⟩ (some {})).2 := by
  refine ⟨?_, ?_, ?_⟩
  · exact ((c3_get_client_gates ⟨"", "sec", "https://x/cb"⟩
      (some { access_token := some "tok" })).1 (Or.inl rfl)).1
  · exact ((c3_get_client_gates ⟨"id", "sec", "https://x/cb"⟩ (some {})).2
      (by decide) (by decide)).1
  · exact ((c3_get_client_gates ⟨"id", "sec", "https://x/cb"⟩ (some {})).2
      (by decide) (by decide)).2

/-- C4: on a callback request carrying an authorization code with a
configured OAuth client, a failed code-for-token exchange yields the
exchange-failure response and leaves the entire server state — in
particular the stored credential row — unchanged. -/
theorem c4_exchange_failure_preserves_state (cfg : OAuthConfig) (code msg : String)
    (dbErr : Option String) (st : ServerState)
    (hcode : code ≠ "") (hcfg : (getOAuth2Client cfg).isSome = true) :
    oauth2callbackHandler cfg (some code) (Except.error msg) dbErr st =
      (⟨500, "OAuth exchange failed."⟩, st) := by
  have hnone : (getOAuth2Client cfg).isNone = false := by
    cases h : getOAuth2Client cfg with
    | none => rw [h] at hcfg; simp at hcfg
    | some _ => rfl
  simp [oauth2callbackHandler, falsyS, hcode, hnone]

theorem c4_exchange_failure_preserves_state_witness :
    oauth2callbackHandler ⟨"id", "sec", "https://x/cb"⟩ (some "4/code")
        (Except.error "invalid_grant") none initState =
      (⟨500, "OAuth exchange failed."⟩, initState) :=
  c4_exchange_failure_preserves_state ⟨"id", "sec", "https://x/cb"⟩ "4/code"
    "invalid_grant" none initState (by decide) (by decide)

/-- C5 counterexample: `POST /api/images` performs its upstream call outside
any try/catch, so with a present prompt and a configured key an upstream
failure escapes the handler uncaught instead of being converted to a JSON
error payload — refuting the claim that every handler converts every
failure at the boundary. -/
theorem c5_images_uncaught_counterexample :
    imagesHandler (some "a cat") none "sk-test" (Except.error "fetch failed") =
      Except.error "fetch failed" := by
  rfl

/-- C5 amended: the handlers that wrap their upstream call in try/catch —
chat, search, calendar create — convert an upstream failure into a JSON
error payload at the handler boundary, but `POST /api/images` has no
try/catch and lets the upstream failure escape the handler uncaught. -/
theorem c5_boundary_policy (m e p q key : String) (n : Option String)
    (st : ServerState) (cfg : OAuthConfig) (row : Option TokenPayload) (b : CreateBody)
    (hm : m ≠ "") (he : e ≠ "") (hp : p ≠ "") (hq : q ≠ "") (hk : key ≠ "")
    (hb : (falsyS b.title || falsyS b.start || falsyS b.endT) = false) :
    (chatHandler (some m) key (Except.error e) st).1 =
      { status := 500, error := some e } ∧
    searchHandler (some q) (Except.error e) =
      { status := 500, error := some "Search failed" } ∧
    ((calendarCreateHandler cfg row b (Except.error e) st).1.status = 500 ∧
      (calendarCreateHandler cfg row b (Except.error e) st).1.error.isSome = true) ∧
    imagesHandler (some p) n key (Except.error e) = Except.error e := by
  refine ⟨?_, ?_, ?_, ?_⟩
  · simp [chatHandler, falsyS, hm, hk, he]
  · simp [searchHandler, falsyS, hq]
  · unfold calendarCreateHandler
    rw [hb]
    cases hc : getCalendarClient cfg row with
    | mk res effs =>
      cases res with
      | error err => simp
      | ok h => simp
  · simp [imagesHandler, falsyS, hp, hk]

theorem c5_boundary_policy_witness :
    (chatHandler (some "hi") "sk-k" (Except.error "boom") initState).1 =
      { status := 500, error := some "boom" } ∧
    searchHandler (some "lean") (Except.error "boom") =
      { status := 500, error := some "Search failed" } ∧
    ((calendarCreateHandler ⟨"id", "sec", "https://x/cb"⟩ none
        { title := some "t", start := some "s", endT := some "e" }
        (Except.error "boom") initState).1.status = 500 ∧
      (calendarCreateHandler ⟨"id", "sec", "https://x/cb"⟩ none
        { title := some "t", start := some "s", endT := some "e" }
        (Except.error "boom") initState).1.error.isSome = true) ∧
    imagesHandler (some "a cat") none "sk-k" (Except.error "boom") =
      Except.error "boom" :=
  c5_boundary_policy "hi" "boom" "a cat" "lean" "sk-k" none initState
    ⟨"id", "sec", "https://x/cb"⟩ none
    { title := some "t", start := some "s", endT := some "e" }
    (by decide) (by decide) (by decide) (by decide) (by decide) (by decide)

/-- C6: a `POST /api/calendar/create` whose body misses any of title,
start or end is answered 400 with the exact error message, with no effect
performed (no store read, no remote call) and the server state unchanged. -/
theorem c6_create_validation_gate (cfg : OAuthConfig) (row : Option TokenPayload)
    (b : CreateBody) (upstream : Except String String) (st : ServerState)
    (h : (falsyS b.title || falsyS b.start || falsyS b.endT) = true) :
    calendarCreateHandler cfg row b upstream st =
      ({ status := 400, error := some "title, start, end required" }, st, []) := by
  unfold calendarCreateHandler
  rw [h]
  rfl

theorem c6_create_validation_gate_witness :
    calendarCreateHandler ⟨"id", "sec", "https://x/cb"⟩
        (some { access_token := some "tok" })
        { title := some "Standup", start := some "2024-01-01T09:00:00Z" }
        (Except.ok "resp") initState =
      ({ status := 400, error := some "title, start, end required" }, initState, []) :=
  c6_create_validation_gate ⟨"id", "sec", "https://x/cb"⟩
    (some { access_token := some "tok" })
    { title := some "Standup", start := some "2024-01-01T09:00:00Z" }
    (Except.ok "resp") initState (by decide)

/-- C7: a `POST /api/chat` with a non-empty message while the AI key is
unset is answered 200 with the set-the-key reply, and the user-role
message row holding the message has still been appended to the message
log. -/
theorem c7_chat_no_key (m : String) (upstream : Except String ChatCompletion)
    (st : ServerState) (hm : m ≠ "") :
    (chatHandler (some m) "" upstream st).1 =
      { status := 200, reply := some chatNoKeyReply } ∧
    (chatHandler (some m) "" upstream st).2.messages =
      st.messages ++ [{ role := "user", content := m }] := by
  constructor <;> simp [chatHandler, falsyS, hm, addMessage]

theorem c7_chat_no_key_witness :
    (chatHandler (some "hi") "" (Except.ok {}) initState).1 =
      { status := 200, reply := some chatNoKeyReply } ∧
    (chatHandler (some "hi") "" (Except.ok {}) initState).2.messages =
      initState.messages ++ [{ role := "user", content := "hi" }] :=
  c7_chat_no_key "hi" (Except.ok {}) initState (by decide)

/-- C10: a `POST /api/chat` with a non-empty message and the AI key set,
whose upstream JSON lacks a first-choice message content (absent or
empty), is still answered 200 with the fallback reply, and both the
user-role row and the assistant-role fallback row are appended to the
message log. -/
theorem c10_chat_fallback (m key : String) (d : ChatCompletion) (st : ServerState)
    (hm : m ≠ "") (hk : key ≠ "")
    (hd : firstChoiceContent d = none ∨ firstChoiceContent d = some "") :
    (chatHandler (some m) key (Except.ok d) st).1 =
      { status := 200, reply := some chatFallback } ∧
    (chatHandler (some m) key (Except.ok d) st).2.messages =
      st.messages ++ [{ role := "user", content := m },
                      { role := "assistant", content := chatFallback }] := by
  have hnorm : normS (firstChoiceContent d) = none := by
    rcases hd with h | h <;> simp [normS, h]
  constructor <;> simp [chatHandler, falsyS, hm, hk, hnorm, addMessage]

theorem c10_chat_fallback_witness :
    (chatHandler (some "hi") "sk-k" (Except.ok { choices := some [] }) initState).1 =
      { status := 200, reply := some chatFallback } ∧
    (chatHandler (some "hi") "sk-k" (Except.ok { choices := some [] }) initState).2.messages =
      initState.messages ++ [{ role := "user", content := "hi" },
                             { role := "assistant", content := chatFallback }] :=
  c10_chat_fallback "hi" "sk-k" { choices := some [] } initState
    (by decide) (by decide) (Or.inl rfl)

/-- Inserting an element below every element of a list (under the
descending-id order) appends it at the end. -/
theorem orderedInsert_append_of_forall_lt (x : MemoryRow) (l : List MemoryRow)
    (h : ∀ y ∈ l, x.id < y.id) :
    List.orderedInsert memGE x l = l ++ [x] := by
  induction l with
  | nil => rfl
  | cons b m ih =>
    have hb : ¬ memGE x b := not_le.mpr (h b (List.mem_cons_self b m))
    simp only [List.orderedInsert, if_neg hb]
    rw [ih (fun y hy => h y (List.mem_cons_of_mem b hy))]
    rfl

/-- Sorting a strictly-increasing-id list by id descending reverses it. -/
theorem insertionSort_desc_eq_reverse (l : List MemoryRow)
    (h : l.Pairwise (fun a b => a.id < b.id)) :
    List.insertionSort memGE l = l.reverse := by
  induction l with
  | nil => rfl
  | cons x xs ih =>
    rw [List.insertionSort, ih (List.pairwise_cons.mp h).2]
    have hx : ∀ y ∈ xs.reverse, x.id < y.id := by
      intro y hy
      exact (List.pairwise_cons.mp h).1 y (List.mem_reverse.mp hy)
    rw [orderedInsert_append_of_forall_lt x xs.reverse hx]
    rw [List.reverse_cons]

/-- The invariant the memories table keeps across writes: ids strictly
increase along insertion order and stay below the AUTOINCREMENT counter. -/
def MemTableInv (st : ServerState) : Prop :=
  st.memories.Pairwise (fun a b => a.id < b.id) ∧
  ∀ m ∈ st.memories, m.id < st.nextMemId

theorem memTableInv_init : MemTableInv initState := by
  constructor
  · exact List.Pairwise.nil
  · intro m hm; simp [initState] at hm

theorem memTableInv_post (st : ServerState) (k v : Option String)
    (h : MemTableInv st) : MemTableInv (postMemories st k v).2 := by
  unfold postMemories
  by_cases hkv : (falsyS k || falsyS v) = true
  · simpa [hkv] using h
  · rw [if_neg hkv]
    constructor
    · refine List.pairwise_append.mpr ⟨h.1, List.pairwise_singleton _ _, ?_⟩
      intro a ha b hb
      rw [List.mem_singleton] at hb
      subst hb
      exact h.2 a ha
    · intro m hm
      rcases List.mem_append.mp hm with h1 | h2
      · exact Nat.lt_succ_of_lt (h.2 m h1)
      · rw [List.mem_singleton] at h2; subst h2; exact Nat.lt_succ_self _

theorem memTableInv_apply (ws : List (Option String × Option String)) (st : ServerState)
    (h : MemTableInv st) : MemTableInv (applyMemWrites st ws) := by
  induction ws generalizing st with
  | nil => exact h
  | cons w ws ih => exact ih _ (memTableInv_post st w.1 w.2 h)

/-- C8: after any sequence of `POST /api/memories` requests applied to the
startup state, `GET /api/memories` returns exactly the stored (written)
rows in reverse insertion order, i.e. most-recent-first. -/
theorem c8_memories_most_recent_first (ws : List (Option String × Option String)) :
    listMemories (applyMemWrites initState ws) =
      (applyMemWrites initState ws).memories.reverse :=
  insertionSort_desc_eq_reverse _ (memTableInv_apply ws initState memTableInv_init).1

/-- C9: after any sequence of `POST /api/events` requests applied to the
startup state, in any insertion order, `GET /api/events` returns a
permutation of the stored events that is sorted by start ascending. -/
theorem c9_events_sorted_by_start (ws : List EventReq) :
    (listEvents (applyEventWrites initState ws)).Perm
      (applyEventWrites initState ws).events ∧
    (listEvents (applyEventWrites initState ws)).Sorted eventLE :=
  ⟨List.perm_insertionSort eventLE _, List.sorted_insertionSort eventLE _⟩

end Jabber
